import Mathlib

/-!
Verification of the sensor-and-actuation monitoring core of the automaticats
repository (src/hardware_monitor.py), shallowly embedded in Lean 4.

Weights (grams) and water levels (percent) are embedded as rationals; the
Python floats only ever enter comparisons, additions and one division here,
so ℚ is a faithful carrier.  Fallible hardware calls are embedded as
explicit inputs (`Except`, `Option`, input streams); every definition is a
computable function so that claims can be checked on concrete inputs.
-/

namespace AutomatiCats

/-! ### SensorConfig constants (src/hardware_monitor.py, class SensorConfig) -/

def MIN_FOOD_WEIGHT : ℚ := 10

def MIN_WATER_LEVEL : ℚ := 20

def EATING_THRESHOLD : ℚ := 5

def WEIGHT_REFERENCE : ℚ := 100

/-! ### Events and the persistence collaborator -/

/-- The `event_type` strings produced by the monitor: `'eating'`,
`'food_added'` (from `detect_eating`) and `'automatic_feed'`
(from `trigger_feeding`). -/
inductive EventType
  | eating
  | food_added
  | automatic_feed
deriving DecidableEq, Repr

/-- One event dict as built by `detect_eating` / `trigger_feeding`.
`weight_change` is present on eating/food_added events, `amount` on
automatic_feed events; the timestamp is irrelevant to the claims and
therefore dropped. -/
structure EventData where
  event_type : EventType
  weight_change : ℚ := 0
  amount : ℚ := 0
deriving DecidableEq, Repr

/-- Embeds `HardwareMonitor.detect_eating` (src/hardware_monitor.py:180-187):
an event is returned exactly when `abs(weight_change) >= EATING_THRESHOLD`,
with type `eating` when the change is negative and `food_added` otherwise. -/
def detect_eating (weight_change : ℚ) : Option EventData :=
  if EATING_THRESHOLD ≤ |weight_change| then
    some { event_type := if weight_change < 0 then EventType.eating else EventType.food_added,
           weight_change := weight_change }
  else
    none

/-- The slice of the SQLite database touched by `log_event`:
the `amount` column of rows inserted into `feeding_logs`, the rows of
`sensor_logs`, and whether a cat named `'Unknown'` exists (the `cats.name`
column is UNIQUE, so there is at most one such row). -/
structure DB where
  hasUnknownCat : Bool
  feeding_logs : List ℚ
  sensor_logs : List EventData
deriving DecidableEq, Repr

/-- The empty database state. -/
def DB0 : DB := { hasUnknownCat := false, feeding_logs := [], sensor_logs := [] }

/-- Embeds `HardwareMonitor.log_event` (src/hardware_monitor.py:189-223).
For an `eating` event the INSERT..SELECT targets the `'Unknown'` cat; when
that cat does not yet exist (`rowcount == 0`) it is created and the insert is
retried, so on either branch exactly one `feeding_logs` row with
`amount = abs(weight_change)` is inserted.  Every event is additionally
appended to `sensor_logs`. -/
def log_event (db : DB) (e : EventData) : DB :=
  let db1 :=
    if e.event_type = EventType.eating then
      { db with hasUnknownCat := true,
                feeding_logs := db.feeding_logs ++ [|e.weight_change|] }
    else db
  { db1 with sensor_logs := db1.sensor_logs ++ [e] }

/-! ### Alerts -/

/-- The `type` field of the alert dicts built by `check_alerts`. -/
inductive AlertType
  | food_low
  | water_low
deriving DecidableEq, Repr

/-- Embeds `HardwareMonitor.check_alerts` (src/hardware_monitor.py:225-241):
it rebuilds the alert list from the current readings alone — there is no
per-kind flag carried across cycles. -/
def check_alerts (weight water_level : ℚ) : List AlertType :=
  (if weight < MIN_FOOD_WEIGHT then [AlertType.food_low] else []) ++
  (if water_level < MIN_WATER_LEVEL then [AlertType.water_low] else [])

/-- The alerts raised over a sequence of per-cycle `(weight, water_level)`
readings: `monitoring_loop` calls `check_alerts` once per cycle. -/
def alertsRaised (samples : List (ℚ × ℚ)) : List AlertType :=
  (samples.map fun p => check_alerts p.1 p.2).flatten

/-! ### Sensor reads -/

/-- The HX711 driver call `weight_sensor.get_value()`: the raw ADC count with
the tare offset recorded by `weight_sensor.tare()` subtracted. -/
def get_value (tareOffset raw : ℚ) : ℚ := raw - tareOffset

/-- The nondeterministic input consumed by one `measure_weight` call:
in simulation mode a jitter term (`random.uniform(-1, 1)` in the code), on
real hardware the raw ADC count presented by the load cell. -/
inductive WeightInput
  | sim (jitter : ℚ)
  | real (raw : ℚ)
deriving Repr

/-- Embeds `HardwareMonitor.measure_weight` (src/hardware_monitor.py:141-149):
simulation returns `last_weight` plus jitter; real hardware converts the
tared raw count by the scale factor and clamps at zero. -/
def measure_weight (inp : WeightInput) (tareOffset scale last_weight : ℚ) : ℚ :=
  match inp with
  | WeightInput.sim j => last_weight + j
  | WeightInput.real raw =>
      let weight := get_value tareOffset raw * scale
      max 0 weight

/-- The ultrasonic echo line sampled once per polling iteration, together
with the real-time length of one iteration. -/
structure EchoTrace where
  level : ℕ → Bool
  tickSeconds : ℚ
deriving Inhabited

/-- Busy-wait until the echo line first shows `target`, polling from tick `t`
for at most `fuel` ticks; `none` models the 100 ms bounded wait expiring. -/
def waitUntil (target : Bool) (e : ℕ → Bool) : ℕ → ℕ → Option ℕ
  | _, 0 => none
  | t, fuel + 1 => if e t = target then some t else waitUntil target e (t + 1) fuel

/-- Embeds the real-hardware branch of `HardwareMonitor.measure_water_level`
(src/hardware_monitor.py:157-178): wait (bounded) for the echo to go high,
then (bounded) for it to go low; either timeout returns `last_water_level`;
otherwise convert the high-pulse duration to a distance and clamp the
resulting percentage to [0, 100].  `budget` is the number of polling
iterations that fit in the 100 ms timeout. -/
def measure_water_level_real (e : EchoTrace) (budget : ℕ) (last_water_level : ℚ) : ℚ :=
  match waitUntil true e.level 0 budget with
  | none => last_water_level
  | some t1 =>
    match waitUntil false e.level t1 budget with
    | none => last_water_level
    | some t2 =>
      let duration := ((t2 - t1 : ℕ) : ℚ) * e.tickSeconds
      let distance := duration * 17150
      max 0 (min 100 ((1 - distance / 20) * 100))

/-- The nondeterministic input consumed by one `measure_water_level` call. -/
inductive WaterInput
  | sim (jitter : ℚ)
  | real (e : EchoTrace) (budget : ℕ)

/-- Embeds `HardwareMonitor.measure_water_level` (src/hardware_monitor.py:151-178):
simulation perturbs the last level by jitter (`random.uniform(-2, 2)`) and
clamps to [0, 100]; real hardware runs the ultrasonic measurement. -/
def measure_water_level (inp : WaterInput) (last_water_level : ℚ) : ℚ :=
  match inp with
  | WaterInput.sim j => max 0 (min 100 (last_water_level + j))
  | WaterInput.real e budget => measure_water_level_real e budget last_water_level

/-! ### Calibration -/

/-- Embeds `HardwareMonitor.calibrate_weight_sensor`
(src/hardware_monitor.py:122-139): without hardware the procedure returns at
once and the scale factor keeps its previous value (the `SensorConfig`
default is `WEIGHT_SCALE = 1.0`); with hardware it averages exactly 10
`get_value()` readings and sets `scale = WEIGHT_REFERENCE / average`. -/
def calibrate_weight_sensor (hw : Bool) (tareOffset : ℚ) (raws : ℕ → ℚ)
    (scale : ℚ) : ℚ :=
  if hw then
    let readings := (List.range 10).map fun i => get_value tareOffset (raws i)
    let average_reading := readings.sum / (readings.length : ℚ)
    WEIGHT_REFERENCE / average_reading
  else scale

/-! ### The monitoring loop -/

/-- The instance state mutated by `monitoring_loop`: `last_weight` and
`last_water_level` as set in `__init__` (src/hardware_monitor.py:76-81)
and updated each cycle, plus the database reached through `log_event`. -/
structure LoopState where
  last_weight : ℚ
  last_water_level : ℚ
  db : DB
deriving Repr

/-- The state right after `HardwareMonitor.__init__`:
`last_weight = 0.0`, `last_water_level = 100.0`. -/
def initState (db : DB) : LoopState :=
  { last_weight := 0, last_water_level := 100, db := db }

/-- The nondeterministic inputs consumed by one loop cycle. -/
structure CycleInput where
  wInp : WeightInput
  wlInp : WaterInput

/-- Embeds one iteration of `HardwareMonitor.monitoring_loop`
(src/hardware_monitor.py:243-269): measure both sensors, evaluate the delta
against `last_weight`, log any detected event, run `check_alerts`
(side-effect free here, modelled by `cycleAlerts`), then store the new
readings as the last values. -/
def cycle (tareOffset scale : ℚ) (s : LoopState) (inp : CycleInput) : LoopState :=
  let weight := measure_weight inp.wInp tareOffset scale s.last_weight
  let water_level := measure_water_level inp.wlInp s.last_water_level
  let weight_change := weight - s.last_weight
  let db :=
    match detect_eating weight_change with
    | some e => log_event s.db e
    | none => s.db
  { last_weight := weight, last_water_level := water_level, db := db }

/-- The alerts `check_alerts` raises during one loop cycle. -/
def cycleAlerts (tareOffset scale : ℚ) (s : LoopState) (inp : CycleInput) : List AlertType :=
  check_alerts (measure_weight inp.wInp tareOffset scale s.last_weight)
    (measure_water_level inp.wlInp s.last_water_level)

/-- Run the monitoring loop over a list of per-cycle inputs. -/
def runCycles (tareOffset scale : ℚ) (s : LoopState) : List CycleInput → LoopState
  | [] => s
  | i :: is => runCycles tareOffset scale (cycle tareOffset scale s i) is

/-- All alerts raised while running the loop over a list of per-cycle inputs. -/
def runAlerts (tareOffset scale : ℚ) (s : LoopState) : List CycleInput → List AlertType
  | [] => []
  | i :: is =>
      cycleAlerts tareOffset scale s i ++
        runAlerts tareOffset scale (cycle tareOffset scale s i) is

/-! ### Status and boundary operations -/

/-- The dict returned by `HardwareMonitor.get_current_status`
(src/hardware_monitor.py:416-422), minus the timestamp. -/
structure Status where
  food_weight : ℚ
  water_level : ℚ
  hardware_available : Bool
deriving DecidableEq, Repr

/-- Embeds `get_current_status`: a pure read of the stored last values and
the module-level `HARDWARE_AVAILABLE` flag. -/
def get_current_status (hw : Bool) (s : LoopState) : Status :=
  { food_weight := s.last_weight,
    water_level := s.last_water_level,
    hardware_available := hw }

/-- Embeds `HardwareMonitor.trigger_feeding` (src/hardware_monitor.py:322-347).
Without hardware it returns `False` immediately.  With hardware the motor
block (duty-cycle change, timed sleep of `amount / 10.0` seconds, stop) is
modelled by `motor`; an exception there is caught and turned into `False`,
otherwise an `automatic_feed` event is logged and `True` returned. -/
def trigger_feeding (hw : Bool) (motor : Except String Unit) (amount : ℚ)
    (db : DB) : Bool × DB :=
  if hw = false then (false, db)
  else
    let _run_time := amount / 10
    match motor with
    | Except.error _ => (false, db)
    | Except.ok _ =>
        (true, log_event db { event_type := EventType.automatic_feed, amount := amount })

/-- The dict returned by `HardwareMonitor.identify_cat`
(src/hardware_monitor.py:366-405), minus the timestamp. -/
structure IdentifyResult where
  success : Bool
  error : Option String := none
  cat_name : Option String := none
  confidence : Option ℚ := none
deriving DecidableEq, Repr

/-- Embeds `HardwareMonitor.identify_cat`.  The guard
`if not HARDWARE_AVAILABLE or not self.model` short-circuits, so the model
is never consulted when hardware is absent.  With both present, the capture
may fail (`capture_image` returns `None` on error), otherwise the classifier
is applied and the predicted index is mapped through `cat_names` with key
`cat_id + 1` (SQLite ids are 1-based) defaulting to `'Unknown'`. -/
def identify_cat {Img : Type} (hw : Bool) (model : Option (Img → ℕ × ℚ))
    (captured : Option Img) (cat_names : ℕ → Option String) : IdentifyResult :=
  if hw = false ∨ model.isNone then
    { success := false, error := some ("Hardware or model not available") }
  else
    match captured, model with
    | none, _ =>
        { success := false, error := some ("Failed to capture image") }
    | some _, none =>
        { success := false, error := some ("Hardware or model not available") }
    | some img, some m =>
        let cat_id := (m img).1
        { success := true,
          cat_name := some ((cat_names (cat_id + 1)).getD ("Unknown")),
          confidence := some (m img).2 }

/-! ### Interleaving model of the loop thread and callers

`HardwareMonitor` creates no `threading.Lock`; the daemon thread running
`monitoring_loop` and the caller threads running `trigger_feeding` /
`get_current_status` interleave freely on the shared attributes.  The model
below splits one loop cycle into its statements — the sensor reads, the
event detection/logging, and the two separate assignments
`self.last_weight = weight` and `self.last_water_level = water_level` — and
lets a `trigger_feeding` call (which adds the dispensed grams to the
physical bowl and logs an `automatic_feed` event) fire between any two of
them, exactly as the unlocked code permits.  The two sensor reads are merged
into one step; coarsening the loop this way only removes interleavings, so
every behaviour exhibited here is a behaviour of the code. -/

/-- Program counter of the loop thread within one cycle, carrying the
cycle's local variables `weight` and `water_level`. -/
inductive LoopPC
  | idle
  | measured (weight water_level : ℚ)
  | logged (weight water_level : ℚ)
  | weightStored (water_level : ℚ)
deriving DecidableEq, Repr

/-- Shared state of the rig, the monitor attributes and the loop thread. -/
structure SysState where
  bowl : ℚ
  env_water : ℚ
  last_weight : ℚ
  last_water_level : ℚ
  db : DB
  pc : LoopPC
deriving Repr

/-- One scheduler action: a statement of the loop thread, or a
`trigger_feeding amount` call completing on another thread (no lock stops
it from running at any loop program point). -/
inductive Act
  | measure
  | detectLog
  | storeWeight
  | storeWater
  | feed (amount : ℚ)
deriving Repr

/-- Small-step semantics of the unlocked system.  Loop statements fire only
at their program point (otherwise the action is a stutter); `feed` fires
anywhere, dispensing into the bowl and logging its event, as
`trigger_feeding` does with hardware present. -/
def stepSys (s : SysState) : Act → SysState
  | Act.measure =>
      match s.pc with
      | LoopPC.idle => { s with pc := LoopPC.measured s.bowl s.env_water }
      | _ => s
  | Act.detectLog =>
      match s.pc with
      | LoopPC.measured w wl =>
          let db :=
            match detect_eating (w - s.last_weight) with
            | some e => log_event s.db e
            | none => s.db
          { s with db := db, pc := LoopPC.logged w wl }
      | _ => s
  | Act.storeWeight =>
      match s.pc with
      | LoopPC.logged w wl => { s with last_weight := w, pc := LoopPC.weightStored wl }
      | _ => s
  | Act.storeWater =>
      match s.pc with
      | LoopPC.weightStored wl => { s with last_water_level := wl, pc := LoopPC.idle }
      | _ => s
  | Act.feed amount =>
      { s with bowl := s.bowl + amount,
               db := log_event s.db { event_type := EventType.automatic_feed, amount := amount } }

/-- Run the unlocked system over a schedule. -/
def runSys (s : SysState) : List Act → SysState
  | [] => s
  | a :: as => runSys (stepSys s a) as

/-- What `get_current_status` reports when called at an arbitrary
interleaving point. -/
def statusSnapshot (s : SysState) : ℚ × ℚ := (s.last_weight, s.last_water_level)

/-- Initial system state for the interleaving model: a stable bowl
(`bowl = last_weight = b0`), physical water level `we`, stored snapshot
`(b0, wl0)`, empty database, loop thread idle between cycles. -/
def sys0 (b0 wl0 we : ℚ) : SysState :=
  { bowl := b0, env_water := we, last_weight := b0,
    last_water_level := wl0, db := DB0, pc := LoopPC.idle }

/-! ### Helper lemmas -/

theorem food_added_ne_eating : EventType.food_added ≠ EventType.eating := by
  decide

theorem automatic_feed_ne_eating : EventType.automatic_feed ≠ EventType.eating := by
  decide

theorem alertsRaised_cons (p : ℚ × ℚ) (ps : List (ℚ × ℚ)) :
    alertsRaised (p :: ps) = check_alerts p.1 p.2 ++ alertsRaised ps := by
  simp [alertsRaised]

theorem count_check_alerts_food (w wl : ℚ) :
    (check_alerts w wl).count AlertType.food_low
      = if w < MIN_FOOD_WEIGHT then 1 else 0 := by
  by_cases h1 : w < MIN_FOOD_WEIGHT <;> by_cases h2 : wl < MIN_WATER_LEVEL <;>
    simp [check_alerts, h1, h2]

theorem count_check_alerts_water (w wl : ℚ) :
    (check_alerts w wl).count AlertType.water_low
      = if wl < MIN_WATER_LEVEL then 1 else 0 := by
  by_cases h1 : w < MIN_FOOD_WEIGHT <;> by_cases h2 : wl < MIN_WATER_LEVEL <;>
    simp [check_alerts, h1, h2]

theorem waterClampBounds (x : ℚ) :
    0 ≤ max 0 (min 100 x) ∧ max 0 (min 100 x) ≤ 100 := by
  refine ⟨le_max_left _ _, max_le (by norm_num) (min_le_left _ _)⟩

theorem water_step_bounds (inp : WaterInput) (last : ℚ)
    (h0 : 0 ≤ last) (h1 : last ≤ 100) :
    0 ≤ measure_water_level inp last ∧ measure_water_level inp last ≤ 100 := by
  cases inp with
  | sim j => exact waterClampBounds _
  | real e budget =>
    show 0 ≤ measure_water_level_real e budget last ∧
      measure_water_level_real e budget last ≤ 100
    rcases hA : waitUntil true e.level 0 budget with _ | t1
    · unfold measure_water_level_real
      simp only [hA]
      exact ⟨h0, h1⟩
    · rcases hB : waitUntil false e.level t1 budget with _ | t2
      · unfold measure_water_level_real
        simp only [hA, hB]
        exact ⟨h0, h1⟩
      · unfold measure_water_level_real
        simp only [hA, hB]
        exact waterClampBounds _

/-! ### The claims -/

/-- Claim C1: for a pair of consecutive weight samples with
`delta = current - previous`, `detect_eating` emits no event when
`|delta| < EATING_THRESHOLD`; when `delta ≤ -EATING_THRESHOLD` it emits an
`eating` event and `log_event` persists the amount `|delta|` into
`feeding_logs`; when `delta ≥ EATING_THRESHOLD` it emits a `food_added`
event whose persisted record carries `weight_change = |delta|`. -/
theorem C1_detect_eating_classification (prev cur : ℚ) (db : DB) :
    (|cur - prev| < EATING_THRESHOLD → detect_eating (cur - prev) = none) ∧
    (cur - prev ≤ -EATING_THRESHOLD →
      ∃ e, detect_eating (cur - prev) = some e ∧
        e.event_type = EventType.eating ∧
        (log_event db e).feeding_logs = db.feeding_logs ++ [|cur - prev|] ∧
        (log_event db e).sensor_logs = db.sensor_logs ++ [e]) ∧
    (EATING_THRESHOLD ≤ cur - prev →
      ∃ e, detect_eating (cur - prev) = some e ∧
        e.event_type = EventType.food_added ∧
        e.weight_change = |cur - prev| ∧
        (log_event db e).sensor_logs = db.sensor_logs ++ [e] ∧
        (log_event db e).feeding_logs = db.feeding_logs) := by
  have h5 : (0 : ℚ) < EATING_THRESHOLD := by norm_num [EATING_THRESHOLD]
  refine ⟨?_, ?_, ?_⟩
  · intro h
    simp [detect_eating, not_le.mpr h]
  · intro h
    have hneg : cur - prev < 0 := lt_of_le_of_lt h (by linarith)
    have habs : EATING_THRESHOLD ≤ |cur - prev| := by
      rw [abs_of_neg hneg]; linarith
    refine ⟨{ event_type := EventType.eating, weight_change := cur - prev }, ?_, rfl, ?_, ?_⟩
    · simp [detect_eating, habs, hneg]
    · simp [log_event]
    · simp [log_event]
  · intro h
    have hnonneg : (0 : ℚ) ≤ cur - prev := by linarith
    have hnotneg : ¬ cur - prev < 0 := not_lt.mpr hnonneg
    have habs : EATING_THRESHOLD ≤ |cur - prev| := by
      rw [abs_of_nonneg hnonneg]; exact h
    refine ⟨{ event_type := EventType.food_added, weight_change := cur - prev }, ?_, rfl,
      ?_, ?_, ?_⟩
    · simp [detect_eating, habs, hnotneg]
    · simp [abs_of_nonneg hnonneg]
    · simp [log_event]
    · simp [log_event]

/-- Witness for C1 at the concrete pair previous = 10, current = 3
(delta = -7 ≤ -5): an eating event whose logged amount is 7. -/
theorem C1_witness :
    ∃ e, detect_eating ((3 : ℚ) - 10) = some e ∧
      e.event_type = EventType.eating ∧
      (log_event DB0 e).feeding_logs = DB0.feeding_logs ++ [|(3 : ℚ) - 10|] ∧
      (log_event DB0 e).sensor_logs = DB0.sensor_logs ++ [e] :=
  (C1_detect_eating_classification 10 3 DB0).2.1 (by norm_num [EATING_THRESHOLD])

/-- Claim C2 counterexample: two consecutive cycles with measured bowl weight
5 g (below MIN_FOOD_WEIGHT = 10 g) make the loop raise two food_low alerts,
not exactly one: `check_alerts` keeps no per-kind flag across cycles. -/
theorem C2_counterexample :
    runAlerts 0 1 (initState DB0)
        [⟨WeightInput.real 5, WaterInput.sim 0⟩, ⟨WeightInput.real 5, WaterInput.sim 0⟩]
      = [AlertType.food_low, AlertType.food_low] ∧
    (runAlerts 0 1 (initState DB0)
        [⟨WeightInput.real 5, WaterInput.sim 0⟩,
         ⟨WeightInput.real 5, WaterInput.sim 0⟩]).count AlertType.food_low ≠ 1 := by
  constructor <;>
    norm_num [runAlerts, cycleAlerts, cycle, check_alerts, measure_weight,
      measure_water_level, get_value, initState, detect_eating, log_event,
      MIN_FOOD_WEIGHT, MIN_WATER_LEVEL, EATING_THRESHOLD, max_def, min_def]

/-- Claim C2 amended: the alert engine is stateless — every cycle whose
measured weight is below MIN_FOOD_WEIGHT raises one food_low alert (so N
consecutive low cycles raise N alerts, and a high cycle in between changes
nothing but the count of low cycles), and likewise for water_low against
MIN_WATER_LEVEL. -/
theorem C2_alerts_every_cycle (samples : List (ℚ × ℚ)) :
    (alertsRaised samples).count AlertType.food_low
      = (samples.filter fun p => p.1 < MIN_FOOD_WEIGHT).length ∧
    (alertsRaised samples).count AlertType.water_low
      = (samples.filter fun p => p.2 < MIN_WATER_LEVEL).length := by
  induction samples with
  | nil => constructor <;> rfl
  | cons p ps ih =>
    obtain ⟨ih1, ih2⟩ := ih
    constructor
    · by_cases h : p.1 < MIN_FOOD_WEIGHT <;>
        simp [alertsRaised_cons, List.count_append, count_check_alerts_food,
          List.filter_cons, h, ih1, Nat.add_comm]
    · by_cases h : p.2 < MIN_WATER_LEVEL <;>
        simp [alertsRaised_cons, List.count_append, count_check_alerts_water,
          List.filter_cons, h, ih2, Nat.add_comm]

/-- Claim C3 counterexample: the code takes no lock, so a `trigger_feeding 50`
call may run between the loop's sensor read of one cycle and the previous
one.  On the schedule feed-then-cycle from bowl 0 g / water 80 % /
snapshot (0, 100), the loop logs a `food_added` event for the dispenser's
own +50 g, and after the loop's first assignment (`last_weight = weight`)
but before its second (`last_water_level = water_level`) a
`get_current_status` reader observes (50, 100) — neither the pre-cycle
snapshot (0, 100) nor the post-cycle snapshot (50, 80), i.e. a half-updated
status. -/
theorem C3_counterexample :
    (runSys (sys0 0 100 80)
        [Act.feed 50, Act.measure, Act.detectLog, Act.storeWeight]).db.sensor_logs
      = [{ event_type := EventType.automatic_feed, amount := 50 },
         { event_type := EventType.food_added, weight_change := 50 }] ∧
    statusSnapshot
        (runSys (sys0 0 100 80) [Act.feed 50, Act.measure, Act.detectLog, Act.storeWeight])
      = (50, 100) ∧
    ((50 : ℚ), (100 : ℚ)) ≠ ((0 : ℚ), (100 : ℚ)) ∧
    ((50 : ℚ), (100 : ℚ)) ≠ ((50 : ℚ), (80 : ℚ)) := by
  refine ⟨?_, ?_, ?_, ?_⟩ <;>
    norm_num [runSys, stepSys, statusSnapshot, detect_eating, log_event, DB0, sys0,
      EATING_THRESHOLD, Prod.ext_iff, food_added_ne_eating, automatic_feed_ne_eating]

/-- Claim C3 amended: `trigger_feeding` and the monitoring loop share no
mutual-exclusion resource, so for every dispense amount at or above
EATING_THRESHOLD there is an interleaving in which the loop classifies the
dispenser's own weight change as a `food_added` event, and in which a reader
observes a status snapshot pairing the new weight with the not-yet-updated
water level. -/
theorem C3_no_lock_interleavings (amount b0 wl0 we : ℚ)
    (h : EATING_THRESHOLD ≤ amount) :
    ∃ acts : List Act,
      (∃ e, e ∈ (runSys (sys0 b0 wl0 we) acts).db.sensor_logs ∧
        e.event_type = EventType.food_added ∧ e.weight_change = amount) ∧
      statusSnapshot (runSys (sys0 b0 wl0 we) acts) = (b0 + amount, wl0) := by
  have h0 : (0 : ℚ) < amount := lt_of_lt_of_le (by norm_num [EATING_THRESHOLD]) h
  have hnotneg : ¬ amount < 0 := by linarith
  have hdelta : b0 + amount - b0 = amount := by ring
  have habs : EATING_THRESHOLD ≤ |amount| := by rwa [abs_of_pos h0]
  refine ⟨[Act.feed amount, Act.measure, Act.detectLog, Act.storeWeight], ?_, ?_⟩
  · refine ⟨{ event_type := EventType.food_added, weight_change := amount }, ?_, rfl, rfl⟩
    simp [runSys, stepSys, detect_eating, log_event, hdelta, habs, hnotneg, DB0, sys0,
      automatic_feed_ne_eating, food_added_ne_eating]
  · simp [runSys, stepSys, statusSnapshot, detect_eating, log_event, hdelta, habs,
      hnotneg, sys0, automatic_feed_ne_eating, food_added_ne_eating]

/-- Witness for C3 at amount = 50 g from bowl 0 g, water 80 %,
snapshot (0, 100). -/
theorem C3_witness :
    EATING_THRESHOLD ≤ (50 : ℚ) ∧
    ∃ acts : List Act,
      (∃ e, e ∈ (runSys (sys0 0 100 80) acts).db.sensor_logs ∧
        e.event_type = EventType.food_added ∧ e.weight_change = 50) ∧
      statusSnapshot (runSys (sys0 0 100 80) acts) = (0 + 50, 100) :=
  ⟨by norm_num [EATING_THRESHOLD],
   C3_no_lock_interleavings 50 0 100 80 (by norm_num [EATING_THRESHOLD])⟩

/-- Claim C4 counterexample: with hardware unavailable, right after
`__init__` the status reports water_level = 100.0 — the initialisation value
`last_water_level = 100.0` — not a zeroed value. -/
theorem C4_counterexample :
    (get_current_status false (initState DB0)).water_level = 100 ∧
    ¬ (get_current_status false (initState DB0)).water_level = 0 := by
  constructor <;> norm_num [get_current_status, initState]

/-- Claim C4 amended: with hardware unavailable every `get_current_status`
call returns hardware_available = false together with the stored last
values — which `__init__` sets to food weight 0.0 and water level 100.0, so
the water level is not zeroed — and the call is a pure projection of the
state (total in this embedding), so repeated calls never raise. -/
theorem C4_status_unavailable (s : LoopState) :
    (get_current_status false s).hardware_available = false ∧
    (get_current_status false s).food_weight = s.last_weight ∧
    (get_current_status false s).water_level = s.last_water_level ∧
    (get_current_status false (initState DB0)).food_weight = 0 ∧
    (get_current_status false (initState DB0)).water_level = 100 :=
  ⟨rfl, rfl, rfl, rfl, rfl⟩

/-- Claim C5 (code bug): `__init__` seeds `last_weight = 0.0` and the very
first monitoring cycle does evaluate a delta against it.  With an initial
bowl weight of 10 g (real sensor branch, tare 0, scale 1) the first cycle
computes weight_change = 10 - 0 = 10 ≥ EATING_THRESHOLD and logs a
food_added event — the first sample does not merely seed previousWeight. -/
theorem C5_first_cycle_event :
    (initState DB0).last_weight = 0 ∧
    (cycle 0 1 (initState DB0) ⟨WeightInput.real 10, WaterInput.sim 0⟩).db.sensor_logs
      = [{ event_type := EventType.food_added, weight_change := 10 }] := by
  constructor
  · rfl
  · norm_num [cycle, initState, measure_weight, measure_water_level, get_value,
      detect_eating, log_event, DB0, EATING_THRESHOLD, max_def, min_def,
      food_added_ne_eating]

/-- Claim C6: calibration averages exactly 10 raw samples and sets
scaleFactor = referenceMass / average; the raw-to-grams conversion is
toGrams(raw) = max(0, (raw - tareOffset) * scaleFactor), hence never
negative; with hardware unavailable calibration is skipped and the scale
factor keeps its default 1.0. -/
theorem C6_calibration_and_conversion (tareOffset : ℚ) (raws : ℕ → ℚ)
    (raw scale last : ℚ) :
    (((List.range 10).map fun i => get_value tareOffset (raws i)).length = 10) ∧
    (calibrate_weight_sensor true tareOffset raws scale
      = WEIGHT_REFERENCE /
          ((((List.range 10).map fun i => get_value tareOffset (raws i)).sum) / 10)) ∧
    (measure_weight (WeightInput.real raw) tareOffset scale last
      = max 0 ((raw - tareOffset) * scale)) ∧
    (0 ≤ measure_weight (WeightInput.real raw) tareOffset scale last) ∧
    (calibrate_weight_sensor false tareOffset raws 1 = 1) := by
  refine ⟨by simp, ?_, rfl, le_max_left _ _, ?_⟩
  · simp [calibrate_weight_sensor]
  · simp [calibrate_weight_sensor]

/-- Claim C7 counterexample: with hardware unavailable `trigger_feeding 50`
returns the bare boolean False — a value identical to the one returned for a
motor failure with hardware present — so the result carries no descriptive
reason or message for the no-hardware case. -/
theorem C7_counterexample :
    trigger_feeding false (Except.ok ()) 50 DB0 = (false, DB0) ∧
    trigger_feeding false (Except.ok ()) 50 DB0
      = trigger_feeding true (Except.error ("motor fault")) 50 DB0 := by
  constructor <;> simp [trigger_feeding]

/-- Claim C7 amended: for every amount, calling `trigger_feeding` when
hardware is unavailable returns plain False (no message attached) without
touching the motor or the database, and — the branch being independent of
any hardware behaviour, modelled by `motor` — it never raises for the
no-hardware case. -/
theorem C7_trigger_no_hardware (amount : ℚ) (motor : Except String Unit) (db : DB) :
    trigger_feeding false motor amount db = (false, db) := by
  simp [trigger_feeding]

/-- Claim C8: on real hardware, when the ultrasonic echo does not arrive
within the bounded wait, or arrives but does not end within the bounded
wait, `measure_water_level` returns the stored last water level instead of
raising, so a sensor timeout never crashes the monitoring cycle. -/
theorem C8_water_timeout_returns_last (e : EchoTrace) (budget : ℕ) (last : ℚ)
    (h : waitUntil true e.level 0 budget = none ∨
      ∃ t1, waitUntil true e.level 0 budget = some t1 ∧
        waitUntil false e.level t1 budget = none) :
    measure_water_level (WaterInput.real e budget) last = last := by
  show measure_water_level_real e budget last = last
  rcases h with h | ⟨t1, h1, h2⟩
  · unfold measure_water_level_real
    simp only [h]
  · unfold measure_water_level_real
    simp only [h1, h2]

/-- Witness for C8: an echo line that never goes high within a 3-poll
budget makes the measurement return the previous level 42. -/
theorem C8_witness :
    (waitUntil true (EchoTrace.mk (fun _ => false) 1).level 0 3 = none ∨
      ∃ t1, waitUntil true (EchoTrace.mk (fun _ => false) 1).level 0 3 = some t1 ∧
        waitUntil false (EchoTrace.mk (fun _ => false) 1).level t1 3 = none) ∧
    measure_water_level (WaterInput.real (EchoTrace.mk (fun _ => false) 1) 3) 42 = 42 :=
  ⟨Or.inl (by simp [waitUntil]),
   C8_water_timeout_returns_last (EchoTrace.mk (fun _ => false) 1) 3 42
     (Or.inl (by simp [waitUntil]))⟩

/-- Claim C9: every `identify_cat` call made while hardware is unavailable
or no trained classifier is loaded returns success = false with an
explanatory error string, and (being a total function of its inputs, the
guard short-circuiting before any hardware access) never raises. -/
theorem C9_identify_unavailable {Img : Type} (hw : Bool)
    (model : Option (Img → ℕ × ℚ)) (captured : Option Img)
    (cat_names : ℕ → Option String) (h : hw = false ∨ model = none) :
    (identify_cat hw model captured cat_names).success = false ∧
    (identify_cat hw model captured cat_names).error
      = some ("Hardware or model not available") := by
  have hc : hw = false ∨ model.isNone = true := by
    rcases h with h | h
    · exact Or.inl h
    · exact Or.inr (by simp [h])
  rw [identify_cat.eq_def, if_pos hc]
  exact ⟨rfl, rfl⟩

/-- Witness for C9: no hardware and no model. -/
theorem C9_witness :
    ((false = false ∨ (none : Option (Unit → ℕ × ℚ)) = none)) ∧
    ((identify_cat false (none : Option (Unit → ℕ × ℚ)) none fun _ => none).success
        = false ∧
      (identify_cat false (none : Option (Unit → ℕ × ℚ)) none fun _ => none).error
        = some ("Hardware or model not available")) :=
  ⟨Or.inl rfl,
   C9_identify_unavailable false none none (fun _ => none) (Or.inl rfl)⟩

/-- Claim C10: starting from the initialisation value 100.0, the stored
water level stays in [0, 100] after any sequence of monitoring cycles —
the simulated read clamps, the real read clamps, and the timeout path keeps
the previous in-range value — and the status snapshot reports exactly that
in-range stored value. -/
theorem C10_water_level_invariant (hw : Bool) (tareOffset scale : ℚ)
    (inps : List CycleInput) :
    0 ≤ (runCycles tareOffset scale (initState DB0) inps).last_water_level ∧
    (runCycles tareOffset scale (initState DB0) inps).last_water_level ≤ 100 ∧
    (get_current_status hw (runCycles tareOffset scale (initState DB0) inps)).water_level
      = (runCycles tareOffset scale (initState DB0) inps).last_water_level := by
  have main : ∀ (inps : List CycleInput) (s : LoopState),
      0 ≤ s.last_water_level → s.last_water_level ≤ 100 →
      0 ≤ (runCycles tareOffset scale s inps).last_water_level ∧
        (runCycles tareOffset scale s inps).last_water_level ≤ 100 := by
    intro inps
    induction inps with
    | nil => intro s h0 h1; exact ⟨h0, h1⟩
    | cons i is ih =>
      intro s h0 h1
      have hb := water_step_bounds i.wlInp s.last_water_level h0 h1
      exact ih (cycle tareOffset scale s i) hb.1 hb.2
  have h := main inps (initState DB0) (by norm_num [initState]) (by norm_num [initState])
  exact ⟨h.1, h.2, rfl⟩

end AutomatiCats
